import Mathlib

/-!
# py_datatable.c : the DataTable wrapper of the datatable engine

A shallow embedding of `src/c/py_datatable.c`.

## Memory model

Addresses are natural numbers and `0` is `NULL`.  Every C struct field read by the
file is a map from the address of the struct to the value of the field (one map per
field), so a pointer comparison in the C text is an equality of numbers here and a
store through a pointer is a `Function.update` of one map.

* `Engine` holds the structs of `datatable.h` (`DataTable`, `Column`, `RowIndex`)
  and the element buffers of the columns.  The transformation kernel
  `dt_DataTable_call` is a parameter: an arbitrary function on `Engine`.
* `State` adds the objects of the host interpreter: the `DataTable_PyObject` and
  `RowIndex_PyObject` wrappers, the reference counts, the error indicator and the
  globals set up by `init_py_datatable`.
* Table wrappers and all other objects are kept apart: `dt_refcnt` counts the
  references of a `DataTable_PyObject`, `ob_refcnt` those of any other object (type
  names, `Py_None`, the element handles of an Object column).  An element handle is
  taken not to be a table wrapper.
* `State.released` is a trace: every call of `dt_DataTable_dealloc` on a non-null
  table puts the address of the table in front of it.

Integers of type `int64_t` are mathematical integers: the two loops of the file
count down from a column or row count to zero, and the only count on which the C
arithmetic would leave the range of the type is `-2^63`, where the decrement is
undefined in C.
-/

namespace PyDatatable

/-- An address; `0` is `NULL`. -/
abbrev Ptr := Nat

/-- Modelled from the spec: the enumeration `ColType` of `datatable.h`, which is not
among the sources.  Section 3 gives the six tags `Auto, Double, Long, Bool, String,
Object`; the names are the ones `init_py_datatable` uses (`DT_COUNT` is their
number). -/
inductive ColType where
  | DT_AUTO
  | DT_DOUBLE
  | DT_LONG
  | DT_BOOL
  | DT_STRING
  | DT_OBJECT
  deriving DecidableEq, Repr

/-- Modelled from the spec: the enumeration `RowIndexType` of `datatable.h`, which is
not among the sources.  Section 3 gives the variants Slice and Array; `RI_OTHER`
stands for any other value of the C type, for which `get_rowindex_type` has a third
branch. -/
inductive RowIndexType where
  | RI_ARRAY
  | RI_SLICE
  | RI_OTHER
  deriving DecidableEq, Repr

/-- Modelled from the spec: the struct `Column` of `datatable.h`, which is not among
the sources.  Section 3: a type tag and a data buffer or view; `data` is the address
of the element buffer, `NULL` when the column has no buffer of its own. -/
structure Column where
  type : ColType
  data : Ptr
  deriving DecidableEq, Repr

/-- Modelled from the spec: the structs `DataTable` and `RowIndex` of `datatable.h`,
which is not among the sources.  Section 3 gives a table the fields `nrows`, `ncols`,
`columns`, `rowindex` and `source`, and a row index its variant tag; each field is a
map from the address of the struct.  `coldata b j` is the `j`-th element of the
buffer at `b`. -/
structure Engine where
  nrows : Ptr → Int
  ncols : Ptr → Int
  columns : Ptr → Nat → Column
  rowindex : Ptr → Ptr
  source : Ptr → Ptr
  ri_type : Ptr → RowIndexType
  coldata : Ptr → Nat → Ptr

/-- The exception types this file can leave in the error indicator. -/
inductive PyExc where
  | RuntimeError
  | TypeError
  | MemoryError
  | SystemError
  deriving DecidableEq, Repr

/-- The whole state: engine memory, interpreter objects, globals of the file. -/
structure State where
  /-- engine memory -/
  eng : Engine
  /-- `ob_refcnt` of the objects that are not `DataTable_PyObject`s -/
  ob_refcnt : Ptr → Int
  /-- text of a string object -/
  ob_str : Ptr → String
  /-- the highest address handed out by the object allocator -/
  brk : Ptr
  /-- `ob_refcnt` of a `DataTable_PyObject` -/
  dt_refcnt : Ptr → Int
  /-- field `ref` of a `DataTable_PyObject` -/
  dt_ref : Ptr → Ptr
  /-- field `source` of a `DataTable_PyObject` -/
  dt_source : Ptr → Ptr
  /-- field `ref` of a `RowIndex_PyObject` -/
  ri_ref : Ptr → Ptr
  /-- the error indicator of the interpreter -/
  err : Option (PyExc × String)
  /-- address of `Py_None` -/
  Py_None : Ptr
  /-- the global table `py_string_coltypes` -/
  py_string_coltypes : ColType → Ptr
  /-- the static `strRowIndexTypeArray` -/
  strRowIndexTypeArray : Ptr
  /-- the static `strRowIndexTypeSlice` -/
  strRowIndexTypeSlice : Ptr
  /-- trace of the tables passed to `dt_DataTable_dealloc`, latest first -/
  released : List Ptr

/-- The type of the kernel `dt_DataTable_call(DataTable*, RowIndex*)`: it works on
engine memory only and returns the address of the new table, or `NULL`. -/
abbrev Kernel := Engine → Ptr → Ptr → Engine × Ptr

/-! ## Reference counting -/

/-- `Py_INCREF(op)` on an object that is not a table wrapper. -/
def Py_INCREF (s : State) (op : Ptr) : State :=
  { s with ob_refcnt := Function.update s.ob_refcnt op (s.ob_refcnt op + 1) }

/-- `Py_XDECREF(op)` on an element handle: nothing for `NULL`, otherwise the count
drops by one.  What the type of the element does when its count reaches zero is not
part of this file. -/
def Py_XDECREF (s : State) (op : Ptr) : State :=
  if op = 0 then s
  else { s with ob_refcnt := Function.update s.ob_refcnt op (s.ob_refcnt op - 1) }

/-- `Py_XINCREF(op)` on a `DataTable_PyObject*`. -/
def Py_XINCREF_dt (s : State) (op : Ptr) : State :=
  if op = 0 then s
  else { s with dt_refcnt := Function.update s.dt_refcnt op (s.dt_refcnt op + 1) }

/-- Modelled from the spec: the function `none()` of `dtutils.h`, which is not among
the sources; it gives the `None` of section 4.4 as a new reference to `Py_None`. -/
def py_none (s : State) : State × Ptr :=
  (Py_INCREF s s.Py_None, s.Py_None)

/-- Modelled from the spec: the function `incref(x)` of `dtutils.h`, which is not
among the sources; it takes a reference to `x` and returns `x`, so that the caller
gets the canonical singleton of section 4.4 itself. -/
def incref (s : State) (x : Ptr) : State × Ptr :=
  (Py_INCREF s x, x)

/-! ## Allocation -/

/-- `PyUnicode_FromString(text)`: a new string object with one reference, at the
next address of the allocator. -/
def PyUnicode_FromString (s : State) (text : String) : State × Ptr :=
  ({ s with
      brk := s.brk + 1
      ob_refcnt := Function.update s.ob_refcnt (s.brk + 1) 1
      ob_str := Function.update s.ob_str (s.brk + 1) text }, s.brk + 1)

/-- Modelled from the spec: the macro `DataTable_PyNew()` of `py_datatable.h`, which
is not among the sources.  It creates the table wrapper that section 4.3 returns: a
new object of the wrapper type with one reference and zeroed fields, at the next
address of the allocator, or `NULL` with `MemoryError` when the allocator has no
memory (`mem_ok = false`). -/
def DataTable_PyNew (mem_ok : Bool) (s : State) : State × Ptr :=
  if mem_ok then
    ({ s with
        brk := s.brk + 1
        dt_refcnt := Function.update s.dt_refcnt (s.brk + 1) 1
        dt_ref := Function.update s.dt_ref (s.brk + 1) 0
        dt_source := Function.update s.dt_source (s.brk + 1) 0 }, s.brk + 1)
  else ({ s with err := some (PyExc.MemoryError, "") }, 0)

/-- `PyTuple_New(n)`: a tuple of `n` empty slots; `NULL` with `SystemError` for a
negative size and `NULL` with `MemoryError` when there is no memory. -/
def PyTuple_New (mem_ok : Bool) (s : State) (n : Int) : State × Option (List Ptr) :=
  if n < 0 then ({ s with err := some (PyExc.SystemError, "bad internal call") }, none)
  else if mem_ok then (s, some (List.replicate n.toNat 0))
  else ({ s with err := some (PyExc.MemoryError, "") }, none)

/-! ## init_py_datatable -/

/-- `init_py_datatable` (lines 13-23): the six type names and the two row index
names, each a fresh string object. -/
def init_py_datatable (s : State) : State :=
  let r0 := PyUnicode_FromString s "auto"
  let r1 := PyUnicode_FromString r0.1 "real"
  let r2 := PyUnicode_FromString r1.1 "int"
  let r3 := PyUnicode_FromString r2.1 "bool"
  let r4 := PyUnicode_FromString r3.1 "str"
  let r5 := PyUnicode_FromString r4.1 "obj"
  let r6 := PyUnicode_FromString r5.1 "array"
  let r7 := PyUnicode_FromString r6.1 "slice"
  { r7.1 with
      py_string_coltypes := fun ct =>
        match ct with
        | ColType.DT_AUTO => r0.2
        | ColType.DT_DOUBLE => r1.2
        | ColType.DT_LONG => r2.2
        | ColType.DT_BOOL => r3.2
        | ColType.DT_STRING => r4.2
        | ColType.DT_OBJECT => r5.2
      strRowIndexTypeArray := r6.2
      strRowIndexTypeSlice := r7.2 }

/-! ## Destruction -/

/-- The loop of `dt_DataTable_dealloc_objcol` (lines 133-135) with `j` elements
left: `while (--j >= 0) Py_XDECREF(coldata[j])`. -/
def objcol_loop (data : Ptr) : Nat → State → State
  | 0, s => s
  | j + 1, s => objcol_loop data j (Py_XDECREF s (s.eng.coldata data j))

/-- `dt_DataTable_dealloc_objcol(data, nrows)` (lines 131-136). -/
def dt_DataTable_dealloc_objcol (s : State) (data : Ptr) (nrows : Int) : State :=
  objcol_loop data nrows.toNat s

/-- The walk of `dt_DataTable_dealloc` over the columns of `dt`, `i` columns left,
highest index first. -/
def dealloc_columns (dealloc_col : State → Ptr → Int → State) (dt : Ptr) :
    Nat → State → State
  | 0, s => s
  | i + 1, s =>
    let c := s.eng.columns dt i
    dealloc_columns dealloc_col dt i
      (if c.type = ColType.DT_OBJECT ∧ c.data ≠ 0 then dealloc_col s c.data (s.eng.nrows dt)
       else s)

/-- Modelled from the spec: `dt_DataTable_dealloc(dt, dealloc_col)` of the engine
(`datatable.c`, not in the sources at hand).  Section 4.5: nothing for an absent
table; otherwise every column buffer the table owns is released, and for an Object
column the element handles are released first, through the callback `dealloc_col`.
The release of the table is recorded in the trace `released`; the fields of a
released table stay readable. -/
def dt_DataTable_dealloc (s : State) (dt : Ptr)
    (dealloc_col : State → Ptr → Int → State) : State :=
  if dt = 0 then s
  else
    let s1 := dealloc_columns dealloc_col dt (s.eng.ncols dt).toNat s
    { s1 with released := dt :: s1.released }

/-- `__dealloc__(self)` (lines 124-129), the `tp_dealloc` of the wrapper type.
`Py_XDECREF(self->source)` runs `__dealloc__` on the source when its count reaches
zero; `fuel` bounds the number of nested runs and `none` means the bound was
reached.  `tp_free` returns the memory of `self` and changes no field. -/
def __dealloc__ : Nat → State → Ptr → Option State
  | 0, _, _ => none
  | fuel + 1, s, self =>
    let s1 := dt_DataTable_dealloc s (s.dt_ref self) dt_DataTable_dealloc_objcol
    let src := s1.dt_source self
    if src = 0 then some s1
    else
      let s2 : State := { s1 with dt_refcnt := Function.update s1.dt_refcnt src (s1.dt_refcnt src - 1) }
      if s2.dt_refcnt src = 0 then __dealloc__ fuel s2 src else some s2

/-- `Py_XDECREF(op)` on a `DataTable_PyObject*`: nothing for `NULL`; otherwise the
count drops by one and at zero `tp_dealloc`, that is `__dealloc__`, runs. -/
def Py_XDECREF_dt (fuel : Nat) (s : State) (op : Ptr) : Option State :=
  if op = 0 then some s
  else
    let s1 : State := { s with dt_refcnt := Function.update s.dt_refcnt op (s.dt_refcnt op - 1) }
    if s1.dt_refcnt op = 0 then __dealloc__ fuel s1 op else some s1

/-! ## __call__ -/

/-- The label `fail` of `__call__` (lines 70-73): release `dtres`, drop `pyres`,
return `NULL`. -/
def call_fail (fuel : Nat) (s : State) (dtres pyres : Ptr) : Option (State × Ptr) :=
  let s1 := dt_DataTable_dealloc s dtres dt_DataTable_dealloc_objcol
  (Py_XDECREF_dt fuel s1 pyres).map (fun s2 => (s2, 0))

/-- `__call__(self, args, kwds)` (lines 35-74).  `args` is the outcome of
`PyArg_ParseTupleAndKeywords`: `none` when the arguments are not one
`RowIndex_PyObject` (the parser has set `TypeError`), `some rows` otherwise.
`kernel` is `dt_DataTable_call`, `mem_ok` says whether `DataTable_PyNew` finds
memory, `fuel` bounds the nested destructor runs.  The result is the new state and
the returned pointer (`0` for `NULL`). -/
def __call__ (kernel : Kernel) (mem_ok : Bool) (fuel : Nat) (s : State) (self : Ptr)
    (args : Option Ptr) : Option (State × Ptr) :=
  match args with
  | none => some ({ s with err := some (PyExc.TypeError, "DataTable.__call__") }, 0)
  | some rows =>
    if s.ri_ref rows = 0 then some (s, 0)
    else
      let k := kernel s.eng (s.dt_ref self) (s.ri_ref rows)
      let dtres := k.2
      let s1 : State := { s with eng := k.1 }
      if dtres = 0 then call_fail fuel s1 dtres 0
      else
        let s2 : State := { s1 with ri_ref := Function.update s1.ri_ref rows 0 }
        let a := DataTable_PyNew mem_ok s2
        let pyres := a.2
        if pyres = 0 then call_fail fuel a.1 dtres pyres
        else
          let s3 : State := { a.1 with dt_ref := Function.update a.1.dt_ref pyres dtres }
          if s3.eng.source dtres = 0 then
            some ({ s3 with dt_source := Function.update s3.dt_source pyres 0 }, pyres)
          else if s3.eng.source dtres = s3.dt_ref self then
            let s4 : State := { s3 with dt_source := Function.update s3.dt_source pyres self }
            some (Py_XINCREF_dt s4 (s4.dt_source pyres), pyres)
          else if s3.eng.source dtres = s3.eng.source (s3.dt_ref self) then
            let s4 : State := { s3 with
              dt_source := Function.update s3.dt_source pyres (s3.dt_source self) }
            some (Py_XINCREF_dt s4 (s4.dt_source pyres), pyres)
          else
            call_fail fuel
              { s3 with err := some (PyExc.RuntimeError, "Unknown source dataframe") }
              dtres pyres

/-! ## Accessors -/

/-- The loop of `get_types` (lines 89-93) with `i` columns left:
`while (--i >= 0)` stores the type name of column `i` and takes a reference. -/
def get_types_loop (dt : Ptr) : Nat → State → List Ptr → State × List Ptr
  | 0, s, list => (s, list)
  | i + 1, s, list =>
    let ct := (s.eng.columns dt i).type
    get_types_loop dt i (Py_INCREF s (s.py_string_coltypes ct))
      (list.set i (s.py_string_coltypes ct))

/-- `get_types(self)` (lines 85-95); the tuple is returned as the list of its
items, `none` is `NULL`. -/
def get_types (mem_ok : Bool) (s : State) (self : Ptr) : State × Option (List Ptr) :=
  let i := s.eng.ncols (s.dt_ref self)
  match PyTuple_New mem_ok s i with
  | (s1, none) => (s1, none)
  | (s1, some list) =>
    let r := get_types_loop (s1.dt_ref self) i.toNat s1 list
    (r.1, some r.2)

/-- `get_rowindex_type(self)` (lines 97-103). -/
def get_rowindex_type (s : State) (self : Ptr) : State × Ptr :=
  if s.eng.rowindex (s.dt_ref self) = 0 then py_none s
  else
    let rit := s.eng.ri_type (s.eng.rowindex (s.dt_ref self))
    if rit = RowIndexType.RI_SLICE then incref s s.strRowIndexTypeSlice
    else if rit = RowIndexType.RI_ARRAY then incref s s.strRowIndexTypeArray
    else py_none s

/-- `get_nrows(self)` (lines 77-79): the value of the integer object. -/
def get_nrows (s : State) (self : Ptr) : Int :=
  s.eng.nrows (s.dt_ref self)

/-- `get_ncols(self)` (lines 81-83): the value of the integer object. -/
def get_ncols (s : State) (self : Ptr) : Int :=
  s.eng.ncols (s.dt_ref self)

/-! ## Wrapper/engine agreement -/

/-- A wrapper agrees with the engine when its `source` is absent exactly when its
table has no source, and otherwise wraps the source of its table. -/
def consistent (s : State) (w : Ptr) : Prop :=
  (s.dt_source w = 0 ↔ s.eng.source (s.dt_ref w) = 0) ∧
  (s.dt_source w ≠ 0 → s.dt_ref (s.dt_source w) = s.eng.source (s.dt_ref w))

instance (s : State) (w : Ptr) : Decidable (consistent s w) := by
  unfold consistent
  infer_instance

/-! ## A small concrete memory -/

/-- Engine memory of the examples: table 10 is a root with columns
`[Long, String, Object]`, table 11 has one Object column whose buffer at 40 holds the
handles 60 and 61, table 12 is a view of table 10; 30 is a Slice row index and 31
an Array row index. -/
def eng0 : Engine where
  nrows := fun _ => 2
  ncols := fun t => if t = 10 then 3 else if t = 11 then 1 else 0
  columns := fun t i =>
    if t = 11 then ⟨ColType.DT_OBJECT, 40⟩
    else if i = 0 then ⟨ColType.DT_LONG, 41⟩
    else if i = 1 then ⟨ColType.DT_STRING, 42⟩
    else ⟨ColType.DT_OBJECT, 0⟩
  rowindex := fun _ => 0
  source := fun t => if t = 12 then 10 else 0
  ri_type := fun r =>
    if r = 30 then RowIndexType.RI_SLICE
    else if r = 31 then RowIndexType.RI_ARRAY
    else RowIndexType.RI_OTHER
  coldata := fun b j => if b = 40 then 60 + j else 0

/-- The memory of the examples before `init_py_datatable` has run: wrapper 1 holds
the root table 10; wrapper 5 holds the view 12 and has wrapper 1 as source; wrapper 6
holds the view 12 but names wrapper 7 (which holds table 20) as source; the selectors
2 and 3 hold the row indexes 30 and 31, the selector 4 holds none; `Py_None` is at
50.  Every object has one reference. -/
def raw0 : State where
  eng := eng0
  ob_refcnt := fun _ => 1
  ob_str := fun _ => ""
  brk := 92
  dt_refcnt := fun _ => 1
  dt_ref := fun w =>
    if w = 1 then 10 else if w = 5 then 12 else if w = 6 then 12
    else if w = 7 then 20 else 0
  dt_source := fun w => if w = 5 then 1 else if w = 6 then 7 else 0
  ri_ref := fun r => if r = 2 then 30 else if r = 3 then 31 else 0
  err := none
  Py_None := 50
  py_string_coltypes := fun _ => 0
  strRowIndexTypeArray := 0
  strRowIndexTypeSlice := 0
  released := []

/-- State of the examples: `raw0` after `init_py_datatable`.  The type names are the
objects 93 to 98, "array" is 99 and "slice" is 100, the last address in use. -/
def st0 : State := init_py_datatable raw0

/-- A kernel that builds the view at the address after its input: the source of the
new table is the input when the input is a root and the source of the input
otherwise, and the supplied row index is attached. -/
def kernel_view : Kernel := fun e t r =>
  ({ e with
      source := Function.update e.source (t + 1) (if e.source t = 0 then t else e.source t)
      rowindex := Function.update e.rowindex (t + 1) r }, t + 1)

/-- A kernel that returns table 11 without a source. -/
def kernel_rootless : Kernel := fun e _ _ =>
  ({ e with source := Function.update e.source 11 0 }, 11)

/-- A kernel that returns table 11 with the unrelated table 99 as source. -/
def kernel_stray : Kernel := fun e _ _ =>
  ({ e with source := Function.update e.source 11 99 }, 11)

/-- A kernel that returns table 11 as a view of table 10. -/
def kernel_of_root : Kernel := fun e _ _ =>
  ({ e with source := Function.update e.source 11 10 }, 11)

/-- A kernel that fails. -/
def kernel_null : Kernel := fun e _ _ => (e, 0)


/-! ## The state a call builds -/

/-- Line 47 of `__call__`: the engine memory and the table `dtres` that the kernel
returns for `self->ref` and `rows->ref`. -/
abbrev call_kernel (K : Kernel) (s : State) (self rows : Ptr) : Engine × Ptr :=
  K s.eng (s.dt_ref self) (s.ri_ref rows)

/-- The field `dtres->source` as `__call__` reads it at lines 54-59. -/
abbrev dtres_source (K : Kernel) (s : State) (self rows : Ptr) : Ptr :=
  (call_kernel K s self rows).1.source (call_kernel K s self rows).2

/-- The field `self->ref->source` as `__call__` reads it at line 59, after the
kernel has run. -/
abbrev self_table_source (K : Kernel) (s : State) (self rows : Ptr) : Ptr :=
  (call_kernel K s self rows).1.source (s.dt_ref self)

/-- The state of `__call__` at line 65 before the reference to the source is taken:
the engine memory is the one the kernel returned, the selector is emptied, and the
new wrapper at `s.brk + 1` holds the table `dtres` and the source `src`. -/
def call_built (s : State) (e : Engine) (rows dtres src : Ptr) : State :=
  { s with
      eng := e
      ri_ref := Function.update s.ri_ref rows 0
      brk := s.brk + 1
      dt_refcnt := Function.update s.dt_refcnt (s.brk + 1) 1
      dt_ref := Function.update s.dt_ref (s.brk + 1) dtres
      dt_source := Function.update s.dt_source (s.brk + 1) src }

/-- The state after wrapper 1 was called with selector 2 and `kernel_view`: the new
wrapper 101 holds table 11 and has wrapper 1 as source. -/
def st1 : State :=
  Py_XINCREF_dt (call_built st0 (kernel_view st0.eng 10 30).1 2 11 1) 1

/-- The state after wrapper 101 was called with selector 3 and `kernel_view`: the new
wrapper 102 holds table 12 and has wrapper 1 as source. -/
def st2 : State :=
  Py_XINCREF_dt (call_built st1 (kernel_view st1.eng 11 31).1 3 12 1) 1

/-! # Theorems -/

/-! ## Frame lemmas for the destruction path -/

theorem Py_XDECREF_frame (s : State) (op : Ptr) :
    Py_XDECREF s op = { s with ob_refcnt := (Py_XDECREF s op).ob_refcnt } := by
  unfold Py_XDECREF
  split <;> rfl

theorem Py_XDECREF_refcnt (s : State) (op p : Ptr) (hp : p ≠ 0) :
    (Py_XDECREF s op).ob_refcnt p = s.ob_refcnt p - (if op = p then 1 else 0) := by
  unfold Py_XDECREF
  by_cases h0 : op = 0
  · have : op ≠ p := fun h => hp (h ▸ h0)
    simp [h0, this, Ne.symm hp]
  · by_cases hop : op = p
    · subst hop
      simp [h0]
    · simp [h0, hop, Function.update_noteq (Ne.symm hop)]

theorem Py_XDECREF_refcnt_null (s : State) (op : Ptr) :
    (Py_XDECREF s op).ob_refcnt 0 = s.ob_refcnt 0 := by
  unfold Py_XDECREF
  by_cases h0 : op = 0
  · simp [h0]
  · simp [h0, Function.update_noteq (Ne.symm h0)]

theorem objcol_loop_frame (data : Ptr) (n : Nat) (s : State) :
    objcol_loop data n s = { s with ob_refcnt := (objcol_loop data n s).ob_refcnt } := by
  induction n generalizing s with
  | zero => rfl
  | succ j ih =>
    simp only [objcol_loop]
    have h1 := ih (Py_XDECREF s (s.eng.coldata data j))
    have h2 := Py_XDECREF_frame s (s.eng.coldata data j)
    rw [h1]
    rw [h2]

theorem objcol_loop_eng (data : Ptr) (n : Nat) (s : State) :
    (objcol_loop data n s).eng = s.eng := by
  rw [objcol_loop_frame]

theorem objcol_loop_refcnt (data : Ptr) (n : Nat) (s : State) (p : Ptr) (hp : p ≠ 0) :
    (objcol_loop data n s).ob_refcnt p
      = s.ob_refcnt p - (((List.range n).map (s.eng.coldata data)).count p : Nat) := by
  induction n generalizing s with
  | zero => simp [objcol_loop]
  | succ j ih =>
    simp only [objcol_loop]
    rw [ih (Py_XDECREF s (s.eng.coldata data j))]
    have he : (Py_XDECREF s (s.eng.coldata data j)).eng = s.eng := by
      rw [Py_XDECREF_frame]
    rw [he, Py_XDECREF_refcnt s _ p hp, List.range_succ, List.map_append, List.count_append]
    by_cases hc : s.eng.coldata data j = p
    · simp [hc]
      ring
    · have hz : List.count p [s.eng.coldata data j] = 0 :=
        List.count_eq_zero.mpr (by simpa using Ne.symm hc)
      simp [hc, hz]

theorem objcol_loop_refcnt_null (data : Ptr) (n : Nat) (s : State) :
    (objcol_loop data n s).ob_refcnt 0 = s.ob_refcnt 0 := by
  induction n generalizing s with
  | zero => rfl
  | succ j ih =>
    simp only [objcol_loop]
    rw [ih, Py_XDECREF_refcnt_null]


theorem dealloc_columns_frame (dt : Ptr) (n : Nat) (s : State) :
    dealloc_columns dt_DataTable_dealloc_objcol dt n s
      = { s with ob_refcnt := (dealloc_columns dt_DataTable_dealloc_objcol dt n s).ob_refcnt } := by
  induction n generalizing s with
  | zero => rfl
  | succ i ih =>
    simp only [dealloc_columns]
    split
    · rw [ih]
      have h := objcol_loop_frame (s.eng.columns dt i).data (s.eng.nrows dt).toNat s
      unfold dt_DataTable_dealloc_objcol
      rw [h]
    · exact ih s

theorem dt_DataTable_dealloc_frame (s : State) (dt : Ptr) :
    dt_DataTable_dealloc s dt dt_DataTable_dealloc_objcol
      = { s with
          ob_refcnt := (dt_DataTable_dealloc s dt dt_DataTable_dealloc_objcol).ob_refcnt
          released := if dt = 0 then s.released else dt :: s.released } := by
  unfold dt_DataTable_dealloc
  by_cases h : dt = 0
  · simp [h]
  · simp only [h, if_false]
    have h1 := dealloc_columns_frame dt (s.eng.ncols dt).toNat s
    rw [h1]

theorem dt_DataTable_dealloc_null (s : State) (cb : State → Ptr → Int → State) :
    dt_DataTable_dealloc s 0 cb = s := by
  simp [dt_DataTable_dealloc]

/-- Dropping the only reference to a wrapper without a source: the destructor runs
once and stops. -/
theorem Py_XDECREF_dt_fresh (n : Nat) (s : State) (p : Ptr) (hp : p ≠ 0)
    (h1 : s.dt_refcnt p = 1) (hsrc : s.dt_source p = 0) :
    ∃ t, Py_XDECREF_dt (n + 1) s p = some t ∧
      t.eng = s.eng ∧ t.ri_ref = s.ri_ref ∧ t.err = s.err ∧ t.dt_source = s.dt_source ∧
      t.dt_ref = s.dt_ref ∧ t.brk = s.brk ∧
      t.dt_refcnt = Function.update s.dt_refcnt p 0 ∧
      t.released = (if s.dt_ref p = 0 then s.released else s.dt_ref p :: s.released) := by
  unfold Py_XDECREF_dt
  simp only [hp, if_false, Function.update_same, h1, sub_self, if_true]
  unfold __dealloc__
  simp only []
  rw [dt_DataTable_dealloc_frame]
  simp [hsrc]


theorem brk_succ_ne {b p : Ptr} (h : p ≤ b) : b + 1 ≠ p := by
  intro h1
  have h2 : b + 1 ≤ b := h1 ▸ h
  exact Nat.not_succ_le_self b h2

/-- The failure label after the wrapper was built: the state it returns. -/
theorem call_fail_fresh (n : Nat) (s : State) (dtres pyres : Ptr) (hp : pyres ≠ 0)
    (h1 : s.dt_refcnt pyres = 1) (hsrc : s.dt_source pyres = 0) :
    ∃ t, call_fail (n + 1) s dtres pyres = some (t, 0) ∧
      t.eng = s.eng ∧ t.ri_ref = s.ri_ref ∧ t.err = s.err ∧ t.dt_source = s.dt_source ∧
      t.dt_ref = s.dt_ref ∧ t.brk = s.brk ∧
      t.dt_refcnt = Function.update s.dt_refcnt pyres 0 ∧
      t.released =
        (if s.dt_ref pyres = 0 then (if dtres = 0 then s.released else dtres :: s.released)
         else s.dt_ref pyres :: (if dtres = 0 then s.released else dtres :: s.released)) := by
  unfold call_fail
  have hf := dt_DataTable_dealloc_frame s dtres
  obtain ⟨t, ht, h⟩ := Py_XDECREF_dt_fresh n
    (dt_DataTable_dealloc s dtres dt_DataTable_dealloc_objcol) pyres hp
    (by rw [hf]; exact h1) (by rw [hf]; exact hsrc)
  refine ⟨t, by simp [ht], ?_⟩
  obtain ⟨a1, a2, a3, a4, a5, a6, a7, a8⟩ := h
  rw [hf] at a1 a2 a3 a4 a5 a6 a7 a8
  exact ⟨a1, a2, a3, a4, a5, a6, a7, a8⟩

/-- The failure label before the wrapper was built. -/
theorem call_fail_null (n : Nat) (s : State) (dtres : Ptr) :
    call_fail n s dtres 0
      = some (dt_DataTable_dealloc s dtres dt_DataTable_dealloc_objcol, 0) := by
  simp [call_fail, Py_XDECREF_dt]

/-- Whatever the failure label returns, the pointer is `NULL`. -/
theorem call_fail_ptr (n : Nat) (s t : State) (dtres pyres r : Ptr)
    (h : call_fail n s dtres pyres = some (t, r)) : r = 0 := by
  unfold call_fail at h
  cases hx : Py_XDECREF_dt n (dt_DataTable_dealloc s dtres dt_DataTable_dealloc_objcol) pyres with
  | none => simp [hx] at h
  | some u =>
    simp [hx] at h
    exact h.2.symm

theorem DataTable_PyNew_true (s : State) :
    DataTable_PyNew true s =
      ({ s with
          brk := s.brk + 1
          dt_refcnt := Function.update s.dt_refcnt (s.brk + 1) 1
          dt_ref := Function.update s.dt_ref (s.brk + 1) 0
          dt_source := Function.update s.dt_source (s.brk + 1) 0 }, s.brk + 1) := rfl

theorem DataTable_PyNew_false (s : State) :
    DataTable_PyNew false s = ({ s with err := some (PyExc.MemoryError, "") }, 0) := rfl

/-- The body of `__call__` once the selector is present, the kernel has returned a
table and the wrapper is allocated. -/
theorem call_eq (K : Kernel) (fuel : Nat) (s : State) (self rows : Ptr)
    (hrows : s.ri_ref rows ≠ 0) (hself : self ≤ s.brk)
    (hk : (call_kernel K s self rows).2 ≠ 0) :
    __call__ K true fuel s self (some rows) =
      if dtres_source K s self rows = 0 then
        some (call_built s (call_kernel K s self rows).1 rows
          (call_kernel K s self rows).2 0, s.brk + 1)
      else if dtres_source K s self rows = s.dt_ref self then
        some (Py_XINCREF_dt (call_built s (call_kernel K s self rows).1 rows
          (call_kernel K s self rows).2 self) self, s.brk + 1)
      else if dtres_source K s self rows = self_table_source K s self rows then
        some (Py_XINCREF_dt (call_built s (call_kernel K s self rows).1 rows
          (call_kernel K s self rows).2 (s.dt_source self)) (s.dt_source self), s.brk + 1)
      else
        call_fail fuel
          { call_built s (call_kernel K s self rows).1 rows (call_kernel K s self rows).2 0 with
            err := some (PyExc.RuntimeError, "Unknown source dataframe") }
          (call_kernel K s self rows).2 (s.brk + 1) := by
  have hne : self ≠ s.brk + 1 := Ne.symm (brk_succ_ne hself)
  unfold __call__
  simp only [hrows, hk, if_false, DataTable_PyNew_true, Nat.succ_ne_zero,
    Function.update_idem, Function.update_same, Function.update_noteq hne, call_built]

/-- An absent selector: `__call__` returns `NULL` and the state as it was. -/
theorem call_absent (K : Kernel) (m : Bool) (fuel : Nat) (s : State) (self rows : Ptr)
    (h : s.ri_ref rows = 0) : __call__ K m fuel s self (some rows) = some (s, 0) := by
  simp [__call__, h]

/-- The kernel fails: only the engine memory may differ afterwards. -/
theorem call_kernel_null (K : Kernel) (m : Bool) (fuel : Nat) (s : State) (self rows : Ptr)
    (hrows : s.ri_ref rows ≠ 0) (hk : (call_kernel K s self rows).2 = 0) :
    __call__ K m fuel s self (some rows)
      = some ({ s with eng := (call_kernel K s self rows).1 }, 0) := by
  unfold __call__
  simp only [hrows, if_false, hk, if_true, call_fail_null, dt_DataTable_dealloc_null]

/-- The wrapper cannot be allocated: the table is released once. -/
theorem call_nomem (K : Kernel) (fuel : Nat) (s : State) (self rows : Ptr)
    (hrows : s.ri_ref rows ≠ 0) (hk : (call_kernel K s self rows).2 ≠ 0) :
    __call__ K false fuel s self (some rows)
      = some (dt_DataTable_dealloc
          { s with
              eng := (call_kernel K s self rows).1
              ri_ref := Function.update s.ri_ref rows 0
              err := some (PyExc.MemoryError, "") }
          (call_kernel K s self rows).2 dt_DataTable_dealloc_objcol, 0) := by
  unfold __call__
  simp only [hrows, if_false, hk, DataTable_PyNew_false, if_true, call_fail_null]

/-- A call that returns a wrapper: it went through the kernel and the allocator, and
its state is the built state with one reference taken on the source. -/
theorem call_success (K : Kernel) (m : Bool) (fuel : Nat) (s : State) (self rows : Ptr)
    (s' : State) (w : Ptr) (hself : self ≤ s.brk)
    (hcall : __call__ K m fuel s self (some rows) = some (s', w)) (hw : w ≠ 0) :
    s.ri_ref rows ≠ 0 ∧ (call_kernel K s self rows).2 ≠ 0 ∧ w = s.brk + 1 ∧
    ∃ S, s' = Py_XINCREF_dt (call_built s (call_kernel K s self rows).1 rows
          (call_kernel K s self rows).2 S) S ∧
      ((dtres_source K s self rows = 0 ∧ S = 0) ∨
       (dtres_source K s self rows ≠ 0 ∧ dtres_source K s self rows = s.dt_ref self ∧
          S = self) ∨
       (dtres_source K s self rows ≠ 0 ∧ dtres_source K s self rows ≠ s.dt_ref self ∧
          dtres_source K s self rows = self_table_source K s self rows ∧
          S = s.dt_source self)) := by
  have hrows : s.ri_ref rows ≠ 0 := by
    intro h
    rw [call_absent K m fuel s self rows h] at hcall
    simp at hcall
    exact hw hcall.2.symm
  have hk : (call_kernel K s self rows).2 ≠ 0 := by
    intro h
    rw [call_kernel_null K m fuel s self rows hrows h] at hcall
    simp at hcall
    exact hw hcall.2.symm
  cases m with
  | false =>
    rw [call_nomem K fuel s self rows hrows hk] at hcall
    simp at hcall
    exact absurd hcall.2.symm hw
  | true =>
    rw [call_eq K fuel s self rows hrows hself hk] at hcall
    refine ⟨hrows, hk, ?_⟩
    by_cases h0 : dtres_source K s self rows = 0
    · rw [if_pos h0] at hcall
      simp only [Option.some.injEq, Prod.mk.injEq] at hcall
      refine ⟨hcall.2.symm, 0, ?_, Or.inl ⟨h0, rfl⟩⟩
      rw [← hcall.1]
      simp [Py_XINCREF_dt]
    · rw [if_neg h0] at hcall
      by_cases h1 : dtres_source K s self rows = s.dt_ref self
      · rw [if_pos h1] at hcall
        simp only [Option.some.injEq, Prod.mk.injEq] at hcall
        exact ⟨hcall.2.symm, self, hcall.1.symm, Or.inr (Or.inl ⟨h0, h1, rfl⟩)⟩
      · rw [if_neg h1] at hcall
        by_cases h2 : dtres_source K s self rows = self_table_source K s self rows
        · rw [if_pos h2] at hcall
          simp only [Option.some.injEq, Prod.mk.injEq] at hcall
          exact ⟨hcall.2.symm, s.dt_source self, hcall.1.symm,
            Or.inr (Or.inr ⟨h0, h1, h2, rfl⟩)⟩
        · rw [if_neg h2] at hcall
          exact absurd (call_fail_ptr _ _ _ _ _ _ hcall) hw


theorem Py_XINCREF_dt_frame (s : State) (p : Ptr) :
    Py_XINCREF_dt s p = { s with dt_refcnt := (Py_XINCREF_dt s p).dt_refcnt } := by
  unfold Py_XINCREF_dt
  split <;> rfl

theorem Py_XINCREF_dt_source (s : State) (p : Ptr) :
    (Py_XINCREF_dt s p).dt_source = s.dt_source := by
  rw [Py_XINCREF_dt_frame]

theorem Py_XINCREF_dt_ref (s : State) (p : Ptr) :
    (Py_XINCREF_dt s p).dt_ref = s.dt_ref := by
  rw [Py_XINCREF_dt_frame]

theorem Py_XINCREF_dt_eng (s : State) (p : Ptr) :
    (Py_XINCREF_dt s p).eng = s.eng := by
  rw [Py_XINCREF_dt_frame]

theorem Py_XINCREF_dt_err (s : State) (p : Ptr) :
    (Py_XINCREF_dt s p).err = s.err := by
  rw [Py_XINCREF_dt_frame]

theorem Py_XINCREF_dt_ri_ref (s : State) (p : Ptr) :
    (Py_XINCREF_dt s p).ri_ref = s.ri_ref := by
  rw [Py_XINCREF_dt_frame]

theorem Py_XINCREF_dt_refcnt (s : State) (p x : Ptr) :
    (Py_XINCREF_dt s p).dt_refcnt x
      = if x = p ∧ p ≠ 0 then s.dt_refcnt x + 1 else s.dt_refcnt x := by
  unfold Py_XINCREF_dt
  by_cases hp : p = 0
  · simp [hp]
  · by_cases hx : x = p
    · subst hx
      simp [hp]
    · simp [hp, hx, Function.update_noteq hx]

/-- C1, the claim as stated fails: wrapper 5 holds the view 12 of table 10, the
kernel returns a table without a source, which is neither table 12 nor table 10,
and `__call__` returns the new wrapper 101 with no source and sets no error. -/
theorem call_rootless_result_is_accepted :
    dtres_source kernel_rootless st0 5 2 ≠ st0.dt_ref 5 ∧
    dtres_source kernel_rootless st0 5 2 ≠ self_table_source kernel_rootless st0 5 2 ∧
    (__call__ kernel_rootless true 1 st0 5 (some 2)).map (fun r => r.2) = some 101 ∧
    (__call__ kernel_rootless true 1 st0 5 (some 2)).map (fun r => r.1.dt_source 101)
      = some 0 ∧
    (__call__ kernel_rootless true 1 st0 5 (some 2)).map (fun r => r.1.err) = some none := by
  decide

/-- C1, amended: once the selector is present, the kernel has returned a table
`dtres` and the result wrapper is allocated, `__call__` decides the source of the
result by four cases.  If `dtres->source` is `NULL` the result has no source and no
error is set.  Otherwise, if `dtres->source` is the table of `self`, the source is
`self`; else if it is the source of the table of `self`, the source is the source of
`self`; else `__call__` returns `NULL` with the error "Unknown source dataframe".
So the call fails exactly when `dtres->source` is present and matches neither. -/
theorem call_lineage_rule (K : Kernel) (fuel : Nat) (s : State) (self rows : Ptr)
    (hrows : s.ri_ref rows ≠ 0) (hself : self ≤ s.brk)
    (hk : (call_kernel K s self rows).2 ≠ 0) (hfuel : 0 < fuel) :
    ∃ s' r, __call__ K true fuel s self (some rows) = some (s', r) ∧
      (dtres_source K s self rows = 0 →
        r ≠ 0 ∧ s'.dt_source r = 0 ∧ s'.err = s.err) ∧
      (dtres_source K s self rows ≠ 0 → dtres_source K s self rows = s.dt_ref self →
        r ≠ 0 ∧ s'.dt_source r = self ∧ s'.err = s.err) ∧
      (dtres_source K s self rows ≠ 0 → dtres_source K s self rows ≠ s.dt_ref self →
        dtres_source K s self rows = self_table_source K s self rows →
        r ≠ 0 ∧ s'.dt_source r = s.dt_source self ∧ s'.err = s.err) ∧
      (dtres_source K s self rows ≠ 0 → dtres_source K s self rows ≠ s.dt_ref self →
        dtres_source K s self rows ≠ self_table_source K s self rows →
        r = 0 ∧ s'.err = some (PyExc.RuntimeError, "Unknown source dataframe")) ∧
      (r ≠ 0 → s'.dt_ref r = (call_kernel K s self rows).2) ∧
      (r = 0 ↔ (dtres_source K s self rows ≠ 0 ∧
          dtres_source K s self rows ≠ s.dt_ref self ∧
          dtres_source K s self rows ≠ self_table_source K s self rows)) := by
  obtain ⟨n, rfl⟩ : ∃ n, fuel = n + 1 := ⟨fuel - 1, by omega⟩
  rw [call_eq K (n + 1) s self rows hrows hself hk]
  by_cases h0 : dtres_source K s self rows = 0
  · rw [if_pos h0]
    refine ⟨_, _, rfl, ?_, ?_, ?_, ?_, ?_, ?_⟩
    · intro _
      simp [call_built]
    · intro h; exact absurd h0 h
    · intro h; exact absurd h0 h
    · intro h; exact absurd h0 h
    · intro _
      simp [call_built]
    · simp [h0]
  · rw [if_neg h0]
    by_cases h1 : dtres_source K s self rows = s.dt_ref self
    · rw [if_pos h1]
      refine ⟨_, _, rfl, ?_, ?_, ?_, ?_, ?_, ?_⟩
      · intro h; exact absurd h h0
      · intro _ _
        simp [call_built, Py_XINCREF_dt_source, Py_XINCREF_dt_err]
      · intro _ h; exact absurd h1 h
      · intro _ h; exact absurd h1 h
      · intro _
        simp [call_built, Py_XINCREF_dt_ref]
      · simp [h1]
    · rw [if_neg h1]
      by_cases h2 : dtres_source K s self rows = self_table_source K s self rows
      · rw [if_pos h2]
        refine ⟨_, _, rfl, ?_, ?_, ?_, ?_, ?_, ?_⟩
        · intro h; exact absurd h h0
        · intro _ h; exact absurd h h1
        · intro _ _ _
          simp [call_built, Py_XINCREF_dt_source, Py_XINCREF_dt_err]
        · intro _ _ h; exact absurd h2 h
        · intro _
          simp [call_built, Py_XINCREF_dt_ref]
        · simp [h2]
      · rw [if_neg h2]
        obtain ⟨t, ht, hfr⟩ := call_fail_fresh n
          { call_built s (call_kernel K s self rows).1 rows (call_kernel K s self rows).2 0 with
            err := some (PyExc.RuntimeError, "Unknown source dataframe") }
          (call_kernel K s self rows).2 (s.brk + 1) (Nat.succ_ne_zero _)
          (by simp [call_built]) (by simp [call_built])
        refine ⟨t, 0, ht, ?_, ?_, ?_, ?_, ?_, ?_⟩
        · intro h; exact absurd h h0
        · intro _ h; exact absurd h h1
        · intro _ _ h; exact absurd h h2
        · intro _ _ _
          exact ⟨rfl, hfr.2.2.1⟩
        · intro h; exact absurd rfl h
        · simp [h0, h1, h2]

/-- C1, the amended rule at a concrete call: wrapper 1 of the root table 10 and the
kernel that builds a view of its input; the call returns a wrapper whose source is
wrapper 1 and sets no error. -/
theorem call_lineage_rule_witness :
    ∃ s' r, __call__ kernel_view true 1 st0 1 (some 2) = some (s', r) ∧
      r ≠ 0 ∧ s'.dt_source r = 1 ∧ s'.err = st0.err := by
  obtain ⟨s', r, h, _, h2, _⟩ :=
    call_lineage_rule kernel_view 1 st0 1 2 (by decide) (by decide) (by decide) (by decide)
  exact ⟨s', r, h, h2 (by decide) (by decide)⟩


/-- C3, the code where the lineage check fails: wrapper 1 is called with the kernel
that returns table 11 with the unrelated source 99.  `__call__` returns `NULL`, and
table 11 is passed to `dt_DataTable_dealloc` twice (once at the label `fail`, once
when the new wrapper, which already holds it, is dropped): the handles 60 and 61 of
its Object column go from one reference to minus one.  When instead the wrapper
cannot be allocated, table 11 is released once. -/
theorem call_lineage_failure_releases_twice :
    (__call__ kernel_stray true 1 st0 1 (some 2)).map (fun r => r.2) = some 0 ∧
    (__call__ kernel_stray true 1 st0 1 (some 2)).map (fun r => r.1.released)
      = some [11, 11] ∧
    st0.ob_refcnt 60 = 1 ∧ st0.ob_refcnt 61 = 1 ∧
    (__call__ kernel_stray true 1 st0 1 (some 2)).map (fun r => r.1.ob_refcnt 60)
      = some (-1) ∧
    (__call__ kernel_stray true 1 st0 1 (some 2)).map (fun r => r.1.ob_refcnt 61)
      = some (-1) ∧
    (__call__ kernel_stray true 1 st0 1 (some 2)).map (fun r => r.1.dt_refcnt 1)
      = some (st0.dt_refcnt 1) ∧
    (__call__ kernel_stray false 1 st0 1 (some 2)).map (fun r => r.1.released)
      = some [11] ∧
    (__call__ kernel_stray false 1 st0 1 (some 2)).map (fun r => r.1.ob_refcnt 60)
      = some 0 := by
  decide

/-- C4, the code at an absent selector: selector 4 holds no row index and the error
indicator is clear; `__call__` returns `NULL`, leaves the state as it was, and the
error indicator is still clear. -/
theorem call_absent_selector_sets_no_error :
    st0.ri_ref 4 = 0 ∧ st0.err = none ∧
    __call__ kernel_view true 1 st0 1 (some 4) = some (st0, 0) ∧
    (__call__ kernel_view true 1 st0 1 (some 4)).map (fun r => r.1.err) = some none :=
  ⟨by decide, by decide, rfl, by decide⟩

/-- With a present selector and a kernel that returns a table, every path of
`__call__` returns, and the selector is empty afterwards. -/
theorem call_clears_selector (K : Kernel) (m : Bool) (n : Nat) (s : State) (self rows : Ptr)
    (hrows : s.ri_ref rows ≠ 0) (hk : (call_kernel K s self rows).2 ≠ 0) :
    ∃ s' r, __call__ K m (n + 1) s self (some rows) = some (s', r) ∧
      s'.ri_ref = Function.update s.ri_ref rows 0 := by
  cases m with
  | false =>
    rw [call_nomem K (n + 1) s self rows hrows hk]
    refine ⟨_, _, rfl, ?_⟩
    rw [dt_DataTable_dealloc_frame]
  | true =>
    unfold __call__
    simp only [hrows, hk, if_false, DataTable_PyNew_true, Nat.succ_ne_zero]
    split_ifs
    · exact ⟨_, _, rfl, rfl⟩
    · refine ⟨_, _, rfl, ?_⟩
      rw [Py_XINCREF_dt_ri_ref]
    · refine ⟨_, _, rfl, ?_⟩
      rw [Py_XINCREF_dt_ri_ref]
    · obtain ⟨t, ht, hfr⟩ := call_fail_fresh n
        { eng := (K s.eng (s.dt_ref self) (s.ri_ref rows)).1, ob_refcnt := s.ob_refcnt,
          ob_str := s.ob_str, brk := s.brk + 1,
          dt_refcnt := Function.update s.dt_refcnt (s.brk + 1) 1,
          dt_ref := Function.update (Function.update s.dt_ref (s.brk + 1) 0) (s.brk + 1)
            (K s.eng (s.dt_ref self) (s.ri_ref rows)).2,
          dt_source := Function.update s.dt_source (s.brk + 1) 0,
          ri_ref := Function.update s.ri_ref rows 0,
          err := some (PyExc.RuntimeError, "Unknown source dataframe"),
          Py_None := s.Py_None, py_string_coltypes := s.py_string_coltypes,
          strRowIndexTypeArray := s.strRowIndexTypeArray,
          strRowIndexTypeSlice := s.strRowIndexTypeSlice, released := s.released }
        (K s.eng (s.dt_ref self) (s.ri_ref rows)).2 (s.brk + 1) (Nat.succ_ne_zero _)
        (by simp) (by simp)
      exact ⟨t, 0, ht, hfr.2.1⟩

/-- C5: selector ownership transfer.  For every call with a present selector: if the
kernel returns a table, the selector wrapper holds no row index afterwards, whichever
way the call ends, and any later call with the same selector wrapper returns `NULL`
at once, the same for every kernel and with the state as it was; if the kernel fails,
the call returns `NULL` and every selector wrapper holds what it held before. -/
theorem call_selector_transfer (K : Kernel) (m : Bool) (fuel : Nat) (s : State)
    (self rows : Ptr) (hrows : s.ri_ref rows ≠ 0) (hfuel : 0 < fuel) :
    ∃ s' r, __call__ K m fuel s self (some rows) = some (s', r) ∧
      ((call_kernel K s self rows).2 ≠ 0 →
        s'.ri_ref rows = 0 ∧
        (∀ q, q ≠ rows → s'.ri_ref q = s.ri_ref q) ∧
        ∀ (K2 : Kernel) (m2 : Bool) (f2 : Nat) (self2 : Ptr),
          __call__ K2 m2 f2 s' self2 (some rows) = some (s', 0)) ∧
      ((call_kernel K s self rows).2 = 0 → r = 0 ∧ s'.ri_ref = s.ri_ref) := by
  obtain ⟨n, rfl⟩ : ∃ n, fuel = n + 1 := ⟨fuel - 1, by omega⟩
  by_cases hk : (call_kernel K s self rows).2 = 0
  · rw [call_kernel_null K m (n + 1) s self rows hrows hk]
    exact ⟨_, _, rfl, fun h => absurd hk h, fun _ => ⟨rfl, rfl⟩⟩
  · obtain ⟨s', r, hc, hri⟩ := call_clears_selector K m n s self rows hrows hk
    have h0 : s'.ri_ref rows = 0 := by
      rw [hri, Function.update_same]
    refine ⟨s', r, hc, fun _ => ⟨h0, ?_, ?_⟩, fun h => absurd h hk⟩
    · intro q hq
      rw [hri, Function.update_noteq hq]
    · intro K2 m2 f2 self2
      exact call_absent K2 m2 f2 s' self2 rows h0

/-- C5 at a concrete call: wrapper 1, the Slice selector 2 and the kernel that builds
a view. -/
theorem call_selector_transfer_witness :
    ∃ s' r, __call__ kernel_view true 1 st0 1 (some 2) = some (s', r) ∧
      s'.ri_ref 2 = 0 ∧
      __call__ kernel_null false 0 s' 5 (some 2) = some (s', 0) := by
  obtain ⟨s', r, h, h1, _⟩ :=
    call_selector_transfer kernel_view true 1 st0 1 2 (by decide) (by decide)
  have h2 := h1 (by decide)
  exact ⟨s', r, h, h2.1, h2.2.2 kernel_null false 0 5⟩


/-! ## get_types -/

theorem Py_INCREF_frame (s : State) (op : Ptr) :
    Py_INCREF s op = { s with ob_refcnt := (Py_INCREF s op).ob_refcnt } := rfl

theorem Py_INCREF_refcnt (s : State) (op p : Ptr) :
    (Py_INCREF s op).ob_refcnt p = s.ob_refcnt p + (if op = p then 1 else 0) := by
  unfold Py_INCREF
  by_cases h : op = p
  · subst h
    simp
  · simp [h, Function.update_noteq (Ne.symm h)]

theorem get_types_loop_frame (dt : Ptr) (i : Nat) (s : State) (list : List Ptr) :
    (get_types_loop dt i s list).1
      = { s with ob_refcnt := (get_types_loop dt i s list).1.ob_refcnt } := by
  induction i generalizing s list with
  | zero => rfl
  | succ i ih =>
    simp only [get_types_loop]
    rw [ih]
    rfl

theorem get_types_loop_refcnt (dt : Ptr) (i : Nat) (s : State) (list : List Ptr) (p : Ptr) :
    (get_types_loop dt i s list).1.ob_refcnt p
      = s.ob_refcnt p + (((List.range i).map
          (fun j => s.py_string_coltypes (s.eng.columns dt j).type)).count p : Nat) := by
  induction i generalizing s list with
  | zero => simp [get_types_loop]
  | succ i ih =>
    simp only [get_types_loop]
    rw [ih, Py_INCREF_refcnt, List.range_succ, List.map_append, List.count_append]
    simp only [Py_INCREF, List.map_cons, List.map_nil]
    by_cases hc : s.py_string_coltypes (s.eng.columns dt i).type = p
    · simp [hc]
      ring
    · have hz : List.count p [s.py_string_coltypes (s.eng.columns dt i).type] = 0 :=
        List.count_eq_zero.mpr (by simpa using Ne.symm hc)
      simp [hc, hz]

theorem get_types_loop_length (dt : Ptr) (i : Nat) (s : State) (list : List Ptr) :
    (get_types_loop dt i s list).2.length = list.length := by
  induction i generalizing s list with
  | zero => rfl
  | succ i ih =>
    simp only [get_types_loop]
    rw [ih, List.length_set]

theorem get_types_loop_items (dt : Ptr) (i : Nat) (s : State) (list : List Ptr) (j : Nat) :
    (get_types_loop dt i s list).2[j]?
      = if j < i ∧ j < list.length then
          some (s.py_string_coltypes (s.eng.columns dt j).type)
        else list[j]? := by
  induction i generalizing s list with
  | zero => simp [get_types_loop]
  | succ i ih =>
    simp only [get_types_loop]
    rw [ih, List.length_set, List.getElem?_set]
    simp only [Py_INCREF]
    by_cases hji : j < i
    · have h1 : i ≠ j := by omega
      have h2 : j < i + 1 := by omega
      simp [hji, h1, h2]
    · by_cases hij : i = j
      · subst hij
        by_cases hl : i < list.length
        · simp [hl]
        · simp [hl]
          omega
      · have h2 : ¬ j < i + 1 := by omega
        simp [hji, hij, h2]

theorem init_py_datatable_table (s0 : State) :
    (init_py_datatable s0).py_string_coltypes ColType.DT_AUTO = s0.brk + 1 ∧
    (init_py_datatable s0).py_string_coltypes ColType.DT_DOUBLE = s0.brk + 2 ∧
    (init_py_datatable s0).py_string_coltypes ColType.DT_LONG = s0.brk + 3 ∧
    (init_py_datatable s0).py_string_coltypes ColType.DT_BOOL = s0.brk + 4 ∧
    (init_py_datatable s0).py_string_coltypes ColType.DT_STRING = s0.brk + 5 ∧
    (init_py_datatable s0).py_string_coltypes ColType.DT_OBJECT = s0.brk + 6 ∧
    (init_py_datatable s0).strRowIndexTypeArray = s0.brk + 7 ∧
    (init_py_datatable s0).strRowIndexTypeSlice = s0.brk + 8 := by
  simp [init_py_datatable, PyUnicode_FromString]

theorem init_py_datatable_str (s0 : State) :
    (init_py_datatable s0).ob_str (s0.brk + 1) = "auto" ∧
    (init_py_datatable s0).ob_str (s0.brk + 2) = "real" ∧
    (init_py_datatable s0).ob_str (s0.brk + 3) = "int" ∧
    (init_py_datatable s0).ob_str (s0.brk + 4) = "bool" ∧
    (init_py_datatable s0).ob_str (s0.brk + 5) = "str" ∧
    (init_py_datatable s0).ob_str (s0.brk + 6) = "obj" ∧
    (init_py_datatable s0).ob_str (s0.brk + 7) = "array" ∧
    (init_py_datatable s0).ob_str (s0.brk + 8) = "slice" := by
  simp [init_py_datatable, PyUnicode_FromString, Function.update]

theorem init_py_datatable_injective (s0 : State) :
    Function.Injective (init_py_datatable s0).py_string_coltypes := by
  obtain ⟨h1, h2, h3, h4, h5, h6, _⟩ := init_py_datatable_table s0
  intro a b hab
  cases a <;> cases b <;> first
    | rfl
    | (exfalso
       simp only [h1, h2, h3, h4, h5, h6] at hab
       exact absurd (Nat.add_left_cancel hab) (by decide))


theorem get_types_eq (s : State) (self : Ptr) (hncols : 0 ≤ s.eng.ncols (s.dt_ref self)) :
    get_types true s self =
      ((get_types_loop (s.dt_ref self) (s.eng.ncols (s.dt_ref self)).toNat s
          (List.replicate (s.eng.ncols (s.dt_ref self)).toNat 0)).1,
       some (get_types_loop (s.dt_ref self) (s.eng.ncols (s.dt_ref self)).toNat s
          (List.replicate (s.eng.ncols (s.dt_ref self)).toNat 0)).2) := by
  unfold get_types PyTuple_New
  simp [not_lt.mpr hncols]

theorem get_types_items (s : State) (dt : Ptr) (n j : Nat) :
    (get_types_loop dt n s (List.replicate n 0)).2[j]?
      = if j < n then some (s.py_string_coltypes (s.eng.columns dt j).type) else none := by
  rw [get_types_loop_items, List.length_replicate, List.getElem?_replicate]
  by_cases h : j < n
  · simp [h]
  · simp [h]

theorem get_types_again (s t : State) (self : Ptr)
    (hncols : 0 ≤ s.eng.ncols (s.dt_ref self))
    (ht : t = { s with ob_refcnt := t.ob_refcnt }) :
    (get_types true t self).2 = (get_types true s self).2 := by
  have e1 : t.eng = s.eng := by rw [ht]
  have e2 : t.dt_ref = s.dt_ref := by rw [ht]
  have e3 : t.py_string_coltypes = s.py_string_coltypes := by rw [ht]
  have hn : 0 ≤ t.eng.ncols (t.dt_ref self) := by
    rw [e1, e2]
    exact hncols
  rw [get_types_eq t self hn, get_types_eq s self hncols]
  simp only [Option.some.injEq]
  apply List.ext_getElem?
  intro j
  rw [get_types_items, get_types_items, e1, e2, e3]

/-- C6: `get_types` on a table with `ncols >= 0` columns, in a state whose table of
type names is the one `init_py_datatable` built (with the strings intact), when the
tuple can be allocated.  The result has exactly `ncols` entries; entry `i` is the
singleton of `columns[i].type`; the six singletons carry the names "auto", "real",
"int", "bool", "str", "obj" and are six different objects; a second call returns the
same entries; the call adds to the count of each singleton the number of columns of
its type, leaves every other count alone and changes nothing else. -/
theorem get_types_returns_singletons (s0 s : State) (self : Ptr)
    (hncols : 0 ≤ s.eng.ncols (s.dt_ref self))
    (htab : s.py_string_coltypes = (init_py_datatable s0).py_string_coltypes)
    (hstr : ∀ ct, s.ob_str (s.py_string_coltypes ct)
        = (init_py_datatable s0).ob_str (s.py_string_coltypes ct)) :
    ∃ s1 items, get_types true s self = (s1, some items) ∧
      items.length = (s.eng.ncols (s.dt_ref self)).toNat ∧
      (∀ i, i < (s.eng.ncols (s.dt_ref self)).toNat →
        items[i]? = some (s.py_string_coltypes (s.eng.columns (s.dt_ref self) i).type)) ∧
      (s.ob_str (s.py_string_coltypes ColType.DT_AUTO) = "auto" ∧
       s.ob_str (s.py_string_coltypes ColType.DT_DOUBLE) = "real" ∧
       s.ob_str (s.py_string_coltypes ColType.DT_LONG) = "int" ∧
       s.ob_str (s.py_string_coltypes ColType.DT_BOOL) = "bool" ∧
       s.ob_str (s.py_string_coltypes ColType.DT_STRING) = "str" ∧
       s.ob_str (s.py_string_coltypes ColType.DT_OBJECT) = "obj") ∧
      Function.Injective s.py_string_coltypes ∧
      (∃ s2, get_types true s1 self = (s2, some items)) ∧
      (∀ ct, s1.ob_refcnt (s.py_string_coltypes ct)
        = s.ob_refcnt (s.py_string_coltypes ct)
          + (((List.range (s.eng.ncols (s.dt_ref self)).toNat).map
              (fun i => (s.eng.columns (s.dt_ref self) i).type)).count ct : Nat)) ∧
      (∀ p, (∀ ct, s.py_string_coltypes ct ≠ p) → s1.ob_refcnt p = s.ob_refcnt p) ∧
      s1 = { s with ob_refcnt := s1.ob_refcnt } := by
  have hinj : Function.Injective s.py_string_coltypes := by
    rw [htab]
    exact init_py_datatable_injective s0
  have hframe := get_types_loop_frame (s.dt_ref self) (s.eng.ncols (s.dt_ref self)).toNat s
    (List.replicate (s.eng.ncols (s.dt_ref self)).toNat 0)
  refine ⟨_, _, get_types_eq s self hncols, ?_, ?_, ?_, hinj, ?_, ?_, ?_, hframe⟩
  · rw [get_types_loop_length, List.length_replicate]
  · intro i hi
    rw [get_types_items, if_pos hi]
  · obtain ⟨t1, t2, t3, t4, t5, t6, _⟩ := init_py_datatable_table s0
    obtain ⟨n1, n2, n3, n4, n5, n6, _⟩ := init_py_datatable_str s0
    refine ⟨?_, ?_, ?_, ?_, ?_, ?_⟩
    · rw [hstr, htab, t1, n1]
    · rw [hstr, htab, t2, n2]
    · rw [hstr, htab, t3, n3]
    · rw [hstr, htab, t4, n4]
    · rw [hstr, htab, t5, n5]
    · rw [hstr, htab, t6, n6]
  · have h2 := get_types_again s _ self hncols hframe
    refine ⟨_, Prod.ext rfl ?_⟩
    rw [h2, get_types_eq s self hncols]
  · intro ct
    rw [get_types_loop_refcnt]
    congr 2
    have hmap : (List.range (s.eng.ncols (s.dt_ref self)).toNat).map
        (fun j => s.py_string_coltypes (s.eng.columns (s.dt_ref self) j).type)
        = ((List.range (s.eng.ncols (s.dt_ref self)).toNat).map
          (fun i => (s.eng.columns (s.dt_ref self) i).type)).map s.py_string_coltypes := by
      rw [List.map_map]
      rfl
    rw [hmap, List.count_map_of_injective _ _ hinj]
  · intro p hp
    rw [get_types_loop_refcnt]
    have hz : ((List.range (s.eng.ncols (s.dt_ref self)).toNat).map
        (fun j => s.py_string_coltypes (s.eng.columns (s.dt_ref self) j).type)).count p = 0 := by
      apply List.count_eq_zero.mpr
      intro hmem
      obtain ⟨j, _, hj⟩ := List.mem_map.mp hmem
      exact hp _ hj
    rw [hz]
    simp

/-- C6 at a concrete table: wrapper 1 of table 10 with columns
`[Long, String, Object]`; the entries are the objects 95, 97 and 98, named "int",
"str" and "obj", and the count of 95 goes from one to two. -/
theorem get_types_returns_singletons_witness :
    ∃ s1 items, get_types true st0 1 = (s1, some items) ∧
      items.length = 3 ∧ items = [95, 97, 98] ∧
      st0.ob_str 95 = "int" ∧ st0.ob_str 97 = "str" ∧ st0.ob_str 98 = "obj" ∧
      st0.ob_refcnt 95 = 1 ∧ s1.ob_refcnt 95 = 2 := by
  obtain ⟨s1, items, h, hlen, _, _, _, _, _, _, _⟩ :=
    get_types_returns_singletons raw0 st0 1 (by decide) rfl (fun _ => rfl)
  refine ⟨s1, items, h, hlen, ?_, by decide, by decide, by decide, by decide, ?_⟩
  · have h2 : (get_types true st0 1).2 = some [95, 97, 98] := by
      decide
    rw [h] at h2
    exact Option.some.inj h2
  · have h2 : (get_types true st0 1).1.ob_refcnt 95 = 2 := by
      decide
    rw [h] at h2
    exact h2


/-- C7: `get_rowindex_type` returns `Py_None` when the table has no row index, the
"slice" singleton for a Slice row index and the "array" singleton for an Array row
index; on every input it returns one of these three objects (so never `NULL` once
they exist), sets no error, and the state after it is the state before with one more
reference on the returned object.  Hence the wrapper returned by a `__call__` on an
allocated `self` whose kernel attached the supplied selector reports "slice" for a
Slice selector and "array" for an Array selector. -/
theorem get_rowindex_type_reports_variant (s : State) (self : Ptr) :
    (s.eng.rowindex (s.dt_ref self) = 0 → (get_rowindex_type s self).2 = s.Py_None) ∧
    (s.eng.rowindex (s.dt_ref self) ≠ 0 →
      s.eng.ri_type (s.eng.rowindex (s.dt_ref self)) = RowIndexType.RI_SLICE →
      (get_rowindex_type s self).2 = s.strRowIndexTypeSlice) ∧
    (s.eng.rowindex (s.dt_ref self) ≠ 0 →
      s.eng.ri_type (s.eng.rowindex (s.dt_ref self)) = RowIndexType.RI_ARRAY →
      (get_rowindex_type s self).2 = s.strRowIndexTypeArray) ∧
    ((get_rowindex_type s self).2 = s.Py_None ∨
      (get_rowindex_type s self).2 = s.strRowIndexTypeSlice ∨
      (get_rowindex_type s self).2 = s.strRowIndexTypeArray) ∧
    (get_rowindex_type s self).1 = Py_INCREF s (get_rowindex_type s self).2 ∧
    ((get_rowindex_type s self).1.err = s.err ∧
      (s.Py_None ≠ 0 → s.strRowIndexTypeSlice ≠ 0 → s.strRowIndexTypeArray ≠ 0 →
        (get_rowindex_type s self).2 ≠ 0)) ∧
    (∀ (K : Kernel) (m : Bool) (fuel : Nat) (rows : Ptr) (s' : State) (w : Ptr),
      self ≤ s.brk →
      __call__ K m fuel s self (some rows) = some (s', w) → w ≠ 0 →
      (call_kernel K s self rows).1.rowindex (call_kernel K s self rows).2 = s.ri_ref rows →
      (call_kernel K s self rows).1.ri_type (s.ri_ref rows) = s.eng.ri_type (s.ri_ref rows) →
      (s.eng.ri_type (s.ri_ref rows) = RowIndexType.RI_SLICE →
        (get_rowindex_type s' w).2 = s'.strRowIndexTypeSlice) ∧
      (s.eng.ri_type (s.ri_ref rows) = RowIndexType.RI_ARRAY →
        (get_rowindex_type s' w).2 = s'.strRowIndexTypeArray)) := by
  have h3 : (get_rowindex_type s self).2 = s.Py_None ∨
      (get_rowindex_type s self).2 = s.strRowIndexTypeSlice ∨
      (get_rowindex_type s self).2 = s.strRowIndexTypeArray := by
    by_cases h : s.eng.rowindex (s.dt_ref self) = 0
    · simp [get_rowindex_type, h, py_none]
    · cases hr : s.eng.ri_type (s.eng.rowindex (s.dt_ref self)) <;>
        simp [get_rowindex_type, h, hr, py_none, incref]
  have hinc : (get_rowindex_type s self).1 = Py_INCREF s (get_rowindex_type s self).2 := by
    by_cases h : s.eng.rowindex (s.dt_ref self) = 0
    · simp [get_rowindex_type, h, py_none]
    · cases hr : s.eng.ri_type (s.eng.rowindex (s.dt_ref self)) <;>
        simp [get_rowindex_type, h, hr, py_none, incref]
  refine ⟨?_, ?_, ?_, h3, hinc, ⟨?_, ?_⟩, ?_⟩
  · intro h
    simp [get_rowindex_type, h, py_none]
  · intro h ht
    simp [get_rowindex_type, h, ht, incref]
  · intro h ht
    simp [get_rowindex_type, h, ht, incref]
  · rw [hinc]
    rfl
  · intro hn hs ha
    rcases h3 with h | h | h
    · rw [h]
      exact hn
    · rw [h]
      exact hs
    · rw [h]
      exact ha
  · intro K m fuel rows s' w hself hcall hw hattach htype
    obtain ⟨hrows, _, hw1, S, hs', _⟩ := call_success K m fuel s self rows s' w hself hcall hw
    have e_eng : s'.eng = (call_kernel K s self rows).1 := by
      rw [hs', Py_XINCREF_dt_eng]
      rfl
    have e_ref : s'.dt_ref w = (call_kernel K s self rows).2 := by
      rw [hs', Py_XINCREF_dt_ref, hw1]
      simp [call_built]
    have h1 : s'.eng.rowindex (s'.dt_ref w) ≠ 0 := by
      rw [e_eng, e_ref, hattach]
      exact hrows
    have h2 : s'.eng.ri_type (s'.eng.rowindex (s'.dt_ref w)) = s.eng.ri_type (s.ri_ref rows) := by
      rw [e_eng, e_ref, hattach, htype]
    constructor
    · intro ht
      simp [get_rowindex_type, h1, h2, ht, incref]
    · intro ht
      simp [get_rowindex_type, h1, h2, ht, incref]

/-- C7 at concrete calls: wrapper 1 has no row index and reports `Py_None` (50);
called with the Slice selector 2 the result reports the "slice" singleton (100), and
the result of that called with the Array selector 3 reports the "array" singleton
(99). -/
theorem get_rowindex_type_reports_variant_witness :
    (get_rowindex_type st0 1).2 = 50 ∧
    (get_rowindex_type st1 101).2 = 100 ∧
    (get_rowindex_type st2 102).2 = 99 := by
  refine ⟨(get_rowindex_type_reports_variant st0 1).1 (by decide), ?_, ?_⟩
  · exact ((get_rowindex_type_reports_variant st0 1).2.2.2.2.2.2 kernel_view true 1 2 st1 101
      (by decide)
      (by rw [call_eq kernel_view 1 st0 1 2 (by decide) (by decide) (by decide)]; rfl)
      (by decide) (by decide) (by decide)).1 (by decide)
  · exact ((get_rowindex_type_reports_variant st1 101).2.2.2.2.2.2 kernel_view true 1 3 st2 102
      (by decide)
      (by rw [call_eq kernel_view 1 st1 101 3 (by decide) (by decide) (by decide)]; rfl)
      (by decide) (by decide) (by decide)).2 (by decide)


/-- The destructor of a wrapper whose source, if any, keeps a reference after the
drop: it runs once and only the count of the source changes among the wrappers. -/
theorem dealloc_live_source (n : Nat) (s : State) (w : Ptr)
    (h : s.dt_source w ≠ 0 → s.dt_refcnt (s.dt_source w) - 1 ≠ 0) :
    ∃ t, __dealloc__ (n + 1) s w = some t ∧
      t.dt_refcnt = (if s.dt_source w = 0 then s.dt_refcnt
        else Function.update s.dt_refcnt (s.dt_source w) (s.dt_refcnt (s.dt_source w) - 1)) ∧
      t.dt_source = s.dt_source ∧ t.dt_ref = s.dt_ref ∧ t.eng = s.eng := by
  unfold __dealloc__
  simp only []
  rw [dt_DataTable_dealloc_frame]
  simp only []
  by_cases h0 : s.dt_source w = 0
  · simp [h0]
  · simp [h0, h h0]

/-- C9: source reference balance.  `self` and its source are allocated wrappers that
hold at least one reference each.  After a `__call__` that returns the wrapper `w`
with source `S`: the count of `S` is one more than before, the new wrapper holds one
reference, and no other wrapper count has changed.  `__dealloc__` of `w` then
returns, takes one from the count of `S`, and every wrapper count other than that of
`w` is what it was before the call.  When `w` has no source, neither step changes
the count of any other wrapper. -/
theorem call_then_dealloc_balances_source (K : Kernel) (m : Bool) (fuel : Nat) (s : State)
    (self rows : Ptr) (s' : State) (w : Ptr)
    (hself : self ≤ s.brk) (hsrc : s.dt_source self ≤ s.brk)
    (hlive : 0 < s.dt_refcnt self)
    (hlive_src : s.dt_source self ≠ 0 → 0 < s.dt_refcnt (s.dt_source self))
    (hcall : __call__ K m fuel s self (some rows) = some (s', w)) (hw : w ≠ 0) :
    (s'.dt_source w ≠ 0 →
      s'.dt_refcnt (s'.dt_source w) = s.dt_refcnt (s'.dt_source w) + 1) ∧
    s'.dt_refcnt w = 1 ∧
    (∀ x, x ≠ w → x ≠ s'.dt_source w → s'.dt_refcnt x = s.dt_refcnt x) ∧
    (s'.dt_source w = 0 → ∀ x, x ≠ w → s'.dt_refcnt x = s.dt_refcnt x) ∧
    (∀ n, ∃ s'', __dealloc__ (n + 1) s' w = some s'' ∧
      (s'.dt_source w ≠ 0 →
        s''.dt_refcnt (s'.dt_source w) = s'.dt_refcnt (s'.dt_source w) - 1) ∧
      (∀ x, x ≠ w → s''.dt_refcnt x = s.dt_refcnt x)) := by
  obtain ⟨_, _, hw1, S, hs', hc⟩ := call_success K m fuel s self rows s' w hself hcall hw
  have hSle : S ≤ s.brk := by
    rcases hc with ⟨_, h⟩ | ⟨_, _, h⟩ | ⟨_, _, _, h⟩
    · rw [h]
      exact Nat.zero_le _
    · rw [h]
      exact hself
    · rw [h]
      exact hsrc
  have hSlive : S ≠ 0 → 0 < s.dt_refcnt S := by
    rcases hc with ⟨_, h⟩ | ⟨_, _, h⟩ | ⟨_, _, _, h⟩
    · intro hS
      exact absurd h hS
    · rw [h]
      exact fun _ => hlive
    · rw [h]
      exact hlive_src
  have hwS : w ≠ S := by
    rw [hw1]
    exact brk_succ_ne hSle
  have e_src : s'.dt_source w = S := by
    rw [hs', Py_XINCREF_dt_source, hw1]
    simp [call_built]
  have e_cnt : ∀ x, s'.dt_refcnt x
      = if x = S ∧ S ≠ 0 then (Function.update s.dt_refcnt w 1) x + 1
        else (Function.update s.dt_refcnt w 1) x := by
    intro x
    rw [hs', Py_XINCREF_dt_refcnt, hw1]
    rfl
  have c_S : S ≠ 0 → s'.dt_refcnt S = s.dt_refcnt S + 1 := by
    intro hS
    rw [e_cnt, if_pos ⟨rfl, hS⟩, Function.update_noteq (Ne.symm hwS)]
  have c_w : s'.dt_refcnt w = 1 := by
    rw [e_cnt, if_neg (fun h => hwS h.1), Function.update_same]
  have c_other : ∀ x, x ≠ w → x ≠ S → s'.dt_refcnt x = s.dt_refcnt x := by
    intro x hxw hxS
    rw [e_cnt, if_neg (fun h => hxS h.1), Function.update_noteq hxw]
  have c_none : S = 0 → ∀ x, x ≠ w → s'.dt_refcnt x = s.dt_refcnt x := by
    intro hS x hxw
    rw [e_cnt, if_neg (fun h => h.2 hS), Function.update_noteq hxw]
  rw [e_src]
  refine ⟨c_S, c_w, c_other, c_none, ?_⟩
  intro n
  have hkeep : s'.dt_source w ≠ 0 → s'.dt_refcnt (s'.dt_source w) - 1 ≠ 0 := by
    rw [e_src]
    intro hS
    rw [c_S hS]
    have := hSlive hS
    omega
  obtain ⟨t, ht, hcnt, _⟩ := dealloc_live_source n s' w hkeep
  rw [e_src] at hcnt
  refine ⟨t, ht, ?_, ?_⟩
  · intro hS
    rw [hcnt, if_neg hS, Function.update_same]
  · intro x hxw
    rw [hcnt]
    by_cases hS : S = 0
    · rw [if_pos hS]
      exact c_none hS x hxw
    · rw [if_neg hS]
      by_cases hxS : x = S
      · rw [hxS, Function.update_same, c_S hS]
        ring
      · rw [Function.update_noteq hxS]
        exact c_other x hxw hxS

/-- C9 at a concrete call: wrapper 1 holds one reference; after the call that returns
wrapper 101 it holds two, and after the destruction of wrapper 101 it holds one. -/
theorem call_then_dealloc_balances_source_witness :
    st1.dt_source 101 = 1 ∧ st0.dt_refcnt 1 = 1 ∧ st1.dt_refcnt 1 = 2 ∧
    ∃ s'', __dealloc__ 1 st1 101 = some s'' ∧ s''.dt_refcnt 1 = 1 := by
  have h := call_then_dealloc_balances_source kernel_view true 1 st0 1 2 st1 101
    (by decide) (by decide) (by decide) (by decide)
    (by rw [call_eq kernel_view 1 st0 1 2 (by decide) (by decide) (by decide)]; rfl)
    (by decide)
  obtain ⟨s'', h1, _, h3⟩ := h.2.2.2.2 0
  exact ⟨by decide, by decide, by decide, s'', h1, h3 1 (by decide)⟩


end PyDatatable
